import Mathlib

/-!
Verification of the movie-rating backend (`backend-coding-challenge`).

Shallow embedding conventions:
* Go `float64` values are modelled as exact rationals (`Rat`); `int`/`int64` as `Int`.
* The relational vote store is modelled as a list of rows; Postgres errors become
  `Except String` results carrying the same error strings the Go code produces.
* Fallible Go functions returning `(T, error)` become `Except` values.
* Struct timestamps (`time.Time`) are modelled as integer ticks.
-/

/-- `BayesianConfig` from `internal/platform/service/rating/rating.go` lines 15-19. -/
structure BayesianConfig where
  minVotes : Int
  globalAverage : Rat
  confidenceK : Rat
deriving DecidableEq

/-- `DefaultBayesianConfig` (rating.go lines 22-28): MinVotes 10, GlobalAverage 3.0, ConfidenceK 25.0. -/
def defaultBayesianConfig : BayesianConfig :=
  { minVotes := 10, globalAverage := 3, confidenceK := 25 }

/-- The mutable fields of `ratingService` (rating.go lines 56-64) that the embedded operations
touch: the Bayesian configuration, the cached global average and the test-mode flag.  The
repository, ID generator, time provider and logger are injected per call in this embedding.
Note the struct has no cache field and no synchronization primitive. -/
structure ServiceState where
  bayesianConfig : BayesianConfig
  globalAverage : Rat
  testMode : Bool
deriving DecidableEq

/-- `NewRatingService` (rating.go lines 66-81): default config, global average 3.0. -/
def newRatingService : ServiceState :=
  { bayesianConfig := defaultBayesianConfig, globalAverage := 3, testMode := false }

/-- `calculateBayesianAverage` (rating.go lines 126-146).
Formula `(C*m + R*v) / (C + v)`; returns the global average when `v = 0`. -/
def calculateBayesianAverage (s : ServiceState) (movieAverage : Rat) (movieVotes : Int) : Rat :=
  let C := s.bayesianConfig.confidenceK
  let m := s.globalAverage
  let R := movieAverage
  let v : Rat := (movieVotes : Rat)
  if v = 0 then m
  else (C * m + R * v) / (C + v)

/-- `calculateConfidence` (rating.go lines 149-155). -/
def calculateConfidence (s : ServiceState) (totalRatings : Int) : Rat :=
  if totalRatings ≥ s.bayesianConfig.minVotes then 1
  else (totalRatings : Rat) / (s.bayesianConfig.minVotes : Rat)

/-- `AppError` from `internal/pkg/errors/error.go` lines 5-9. -/
structure AppError where
  message : String
  statusCode : Nat
  code : String
deriving DecidableEq

/-- `NewBadRequestError` (error.go lines 15-21). -/
def newBadRequestError (message : String) : AppError :=
  { message := message, statusCode := 400, code := "BAD_REQUEST" }

/-- `NewConflictError` (error.go lines 23-29). -/
def newConflictError (message : String) : AppError :=
  { message := message, statusCode := 409, code := "CONFLICT" }

/-- `NewInternalError` (error.go lines 31-37). -/
def newInternalError (message : String) : AppError :=
  { message := message, statusCode := 500, code := "INTERNAL_ERROR" }

/-- Modelled from the spec: `errors.NewNotFoundError` is called by the rating service but its
constructor is not among the provided sources (error.go shows only BadRequest/Conflict/Internal).
The spec's error taxonomy says a NotFoundError is "surfaced distinctly" as a 4xx-equivalent, so it
is modelled as the 404 member of the same `AppError` family. -/
def newNotFoundError (message : String) : AppError :=
  { message := message, statusCode := 404, code := "NOT_FOUND" }

/-- `isConflictError` (rating.go lines 487-489): exact string comparison of the error text. -/
def isConflictError (errText : String) : Bool :=
  errText == "user has already rated this movie"

/-- `isNotFoundError` (rating.go lines 491-493): exact string comparison of the error text. -/
def isNotFoundError (errText : String) : Bool :=
  errText == "not found"

/-- The `Rating` row from `internal/domain/rating` (part_003 lines 14-22). -/
structure Rating where
  id : String
  userId : String
  movieId : String
  score : Int
  review : String
  createdAt : Int
  updatedAt : Int
deriving DecidableEq

/-- The ratings table: one row per rating. -/
abbrev RatingsDb := List Rating

/-- `NewRating` + `Validate` (part_003 lines 30-69): trims the review, stamps id and timestamps,
then validates user id, movie id and the 1..5 score range, in that order. -/
def newRating (userId movieId : String) (score : Int) (review : String)
    (genId : String) (now : Int) : Except String Rating :=
  let r : Rating :=
    { id := genId, userId := userId, movieId := movieId, score := score,
      review := review.trim, createdAt := now, updatedAt := now }
  if r.userId == "" then .error "user ID cannot be empty"
  else if r.movieId == "" then .error "movie ID cannot be empty"
  else if r.score < 1 ∨ 5 < r.score then .error "score must be between 1 and 5"
  else .ok r

/-- `ratingRepository.Save` (`internal/platform/repository/ratings.go` lines 25-46).
The ratings table (migration 000003) has PRIMARY KEY (id) and UNIQUE (user_id, movie_id); a
Postgres unique violation (code 23505) is translated to the fixed string
"user has already rated this movie". -/
def ratingRepoSave (db : RatingsDb) (r : Rating) : Except String (RatingsDb × Rating) :=
  if db.any (fun x => x.id == r.id || (x.userId == r.userId && x.movieId == r.movieId)) then
    .error "user has already rated this movie"
  else .ok (db ++ [r], r)

/-- `ratingRepository.GetByID` (ratings.go lines 48-67): `sql.ErrNoRows` becomes the error string
"rating with ID {id} not found". -/
def ratingRepoGetByID (db : RatingsDb) (id : String) : Except String Rating :=
  match db.find? (fun r => r.id == id) with
  | some r => .ok r
  | none => .error ("rating with ID " ++ id ++ " not found")

/-- `ratingRepository.GetByUserAndMovie` (ratings.go lines 69-88). -/
def ratingRepoGetByUserAndMovie (db : RatingsDb) (userId movieId : String) :
    Except String Rating :=
  match db.find? (fun r => r.userId == userId && r.movieId == movieId) with
  | some r => .ok r
  | none => .error ("rating not found for user " ++ userId ++ " and movie " ++ movieId)

/-- `ratingRepository.Delete` (ratings.go lines 146-164): a DELETE affecting zero rows becomes
the error string "rating with ID {id} not found". -/
def ratingRepoDelete (db : RatingsDb) (id : String) : Except String RatingsDb :=
  let remaining := db.filter (fun r => r.id != id)
  if db.length - remaining.length = 0 then
    .error ("rating with ID " ++ id ++ " not found")
  else .ok remaining

/-- `ratingRepository.Update` (ratings.go lines 122-144): re-stamps updated_at from the clock,
updates score and review in place; `sql.ErrNoRows` (no row with that id) becomes
"rating with ID {id} not found". -/
def ratingRepoUpdate (db : RatingsDb) (r : Rating) (now : Int) :
    Except String (RatingsDb × Rating) :=
  if db.any (fun x => x.id == r.id) then
    let updated := { r with updatedAt := now }
    .ok (db.map (fun x => if x.id == r.id then updated else x), updated)
  else .error ("rating with ID " ++ r.id ++ " not found")

/-- `CreateRatingRequest` (service/rating, part after job.go). -/
structure CreateRatingRequest where
  userId : String
  movieId : String
  score : Int
  review : String
deriving DecidableEq

/-- `UpdateRatingRequest`: optional new score and review. -/
structure UpdateRatingRequest where
  score : Option Int
  review : Option String
deriving DecidableEq

/-- `ratingService.CreateRating` (rating.go lines 208-257).
The store is sampled twice — `dbAtPrecheck` when `GetByUserAndMovie` runs and `dbAtSave` when
`Save` runs — because the Go code performs two separate repository calls and a concurrent writer
may commit between them (the race the spec describes).  The background global-average refresh
triggered on success touches only the service state and is modelled by `updateGlobalAverage`. -/
def createRating (dbAtPrecheck dbAtSave : RatingsDb) (req : CreateRatingRequest)
    (genId : String) (now : Int) : Except AppError (RatingsDb × Rating) :=
  match ratingRepoGetByUserAndMovie dbAtPrecheck req.userId req.movieId with
  | .ok _ => .error (newConflictError "User has already rated this movie")
  | .error _ =>
    match newRating req.userId req.movieId req.score req.review genId now with
    | .error e => .error (newBadRequestError e)
    | .ok r =>
      match ratingRepoSave dbAtSave r with
      | .error e =>
        if isConflictError e then .error (newConflictError "User has already rated this movie")
        else .error (newInternalError "Failed to create rating")
      | .ok (db2, saved) => .ok (db2, saved)

/-- `Rating.UpdateScore` (part_003 lines 71-79). -/
def ratingUpdateScore (r : Rating) (score : Int) (now : Int) : Except String Rating :=
  if score < 1 ∨ 5 < score then .error "score must be between 1 and 5"
  else .ok { r with score := score, updatedAt := now }

/-- `Rating.UpdateReview` (part_003 lines 81-85): trims and re-stamps, never fails. -/
def ratingUpdateReview (r : Rating) (review : String) (now : Int) : Rating :=
  { r with review := review.trim, updatedAt := now }

/-- `ratingService.UpdateRating` (rating.go lines 287-334): fetch by id (mapping errors through
`isNotFoundError`), apply the partial update, persist through the repository. -/
def updateRating (db : RatingsDb) (id : String) (req : UpdateRatingRequest) (now : Int) :
    Except AppError (RatingsDb × Rating) :=
  match ratingRepoGetByID db id with
  | .error e =>
    if isNotFoundError e then .error (newNotFoundError "Rating not found")
    else .error (newInternalError "Failed to get rating for update")
  | .ok existing =>
    let afterScore : Except String Rating :=
      match req.score with
      | some sc => ratingUpdateScore existing sc now
      | none => .ok existing
    match afterScore with
    | .error e => .error (newBadRequestError e)
    | .ok r1 =>
      let r2 :=
        match req.review with
        | some rv => ratingUpdateReview r1 rv now
        | none => r1
      match ratingRepoUpdate db r2 now with
      | .error _ => .error (newInternalError "Failed to update rating")
      | .ok (db2, saved) => .ok (db2, saved)

/-- `ratingService.DeleteRating` (rating.go lines 336-361): delete through the repository,
mapping its error through `isNotFoundError`. -/
def deleteRating (db : RatingsDb) (id : String) : Except AppError RatingsDb :=
  match ratingRepoDelete db id with
  | .error e =>
    if isNotFoundError e then .error (newNotFoundError "Rating not found")
    else .error (newInternalError "Failed to delete rating")
  | .ok db2 => .ok db2

/-- `ratingService.UpdateGlobalAverage` (rating.go lines 446-466).  The repository call
`GetGlobalAverageRating` is modelled by its result.  On error the function returns a wrapped
error and falls through without touching the state; on success it overwrites both
`globalAverage` and `bayesianConfig.GlobalAverage`. -/
def updateGlobalAverage (s : ServiceState) (repoResult : Except String Rat) :
    Except String Unit × ServiceState :=
  match repoResult with
  | .error e => (.error ("failed to update global average: " ++ e), s)
  | .ok newGlobalAverage =>
    (.ok (),
      { s with
          globalAverage := newGlobalAverage,
          bayesianConfig := { s.bayesianConfig with globalAverage := newGlobalAverage } })

/-- `MovieRatingStats` from `internal/domain/rating/repository.go` lines 61-66.
`ScoreCount` is the score histogram as an association list. -/
structure MovieRatingStats where
  movieId : String
  averageScore : Rat
  totalRatings : Int
  scoreCount : List (Int × Int)
deriving DecidableEq

/-- `ratingService.GetMovieStats` (rating.go lines 401-409), instrumented for the cache-aside
claim: the function takes a view of what a cache might hold for this movie and reports whether
the Vote Store was queried.  The `ratingService` struct (rating.go lines 56-64) has no cache
field, so — faithfully to the source — the cache argument is never consulted: every call goes to
`ratingRepo.GetMovieStats`, whose outcome is `repoResult`. -/
def getMovieStats (cached : Option MovieRatingStats)
    (repoResult : Except String MovieRatingStats) :
    Except AppError MovieRatingStats × Bool :=
  match repoResult with
  | .error _ => (.error (newInternalError "Failed to get movie stats"), true)
  | .ok stats => (.ok stats, true)

/-- Modelled from the spec: `getEntityAggregate(entityID)` is "cache-aside — on hit return cached
value; on miss, compute from Vote Store and populate cache with a bounded TTL".  The boolean
reports whether the store was queried. -/
def getEntityAggregateSpec (cached : Option MovieRatingStats)
    (storeComputed : MovieRatingStats) : MovieRatingStats × Bool :=
  match cached with
  | some v => (v, false)
  | none => (storeComputed, true)

/-- `SearchOptions` from `internal/domain/rating/repository.go` lines 9-14. -/
structure SearchOptions where
  limit : Int
  offset : Int
  sortBy : String
  order : String
deriving DecidableEq

/-- `DefaultSearchOptions` (repository.go lines 16-23). -/
def defaultSearchOptions : SearchOptions :=
  { limit := 20, offset := 0, sortBy := "created_at", order := "desc" }

/-- `SearchOption` (repository.go line 25): a functional option mutating `SearchOptions`. -/
abbrev SearchOption := SearchOptions → SearchOptions

/-- `WithLimit` (repository.go lines 27-31). -/
def withLimit (limit : Int) : SearchOption := fun opts => { opts with limit := limit }

/-- `WithOffset` (repository.go lines 33-37). -/
def withOffset (offset : Int) : SearchOption := fun opts => { opts with offset := offset }

/-- `WithSort` (repository.go lines 39-44). -/
def withSort (sortBy order : String) : SearchOption :=
  fun opts => { opts with sortBy := sortBy, order := order }

/-- The option-application loop at the head of `GetByUser`/`GetByMovie`
(`internal/platform/repository/ratings.go` lines 91-94, 107-110). -/
def applyOptions (options : List SearchOption) : SearchOptions :=
  options.foldl (fun opts option => option opts) defaultSearchOptions

/-- `ratingRepository.getSortColumn` (ratings.go lines 259-270). -/
def getSortColumn (sortBy : String) : String :=
  if sortBy == "score" then "score"
  else if sortBy == "created_at" then "created_at"
  else if sortBy == "updated_at" then "updated_at"
  else "created_at"

/-- The value of the ORDER BY column for a row. -/
def sortKey (col : String) (r : Rating) : Int :=
  if col == "score" then r.score
  else if col == "updated_at" then r.updatedAt
  else r.createdAt

/-- Comparator realising `ORDER BY col ASC` (or `DESC` when `asc` is false). -/
def ratingLe (col : String) (asc : Bool) (a b : Rating) : Bool :=
  if asc then sortKey col a ≤ sortKey col b else sortKey col b ≤ sortKey col a

/-- Insertion of one row into a sorted run (model of the SQL sort). -/
def insertSorted (le : Rating → Rating → Bool) (r : Rating) : List Rating → List Rating
  | [] => [r]
  | x :: xs => if le r x then r :: x :: xs else x :: insertSorted le r xs

/-- Sorting model for the SQL `ORDER BY` clause. -/
def sortRatings (le : Rating → Rating → Bool) : List Rating → List Rating
  | [] => []
  | x :: xs => insertSorted le x (sortRatings le xs)

/-- ASCII upper-casing of one character, as `strings.ToUpper` acts on the order words used
here. -/
def charToUpper (c : Char) : Char :=
  if c.isLower then Char.ofNat (c.toNat - 32) else c

/-- Model of Go's `strings.ToUpper` applied to `opts.Order` (ratings.go lines 101, 117). -/
def stringToUpper (s : String) : String := String.mk (s.data.map charToUpper)

/-- The `ORDER BY %s %s LIMIT $2 OFFSET $3` tail of the `GetByUser`/`GetByMovie` queries
(ratings.go lines 96-103, 112-119).  `strings.ToUpper(opts.Order)` is interpolated into the SQL,
so an order other than asc/desc, or a negative limit or offset, makes Postgres reject the query
and the repository return an error; otherwise the sorted rows are cut by OFFSET then LIMIT. -/
def sqlOrderLimitOffset (col order : String) (limit offset : Int) (rows : List Rating) :
    Except String (List Rating) :=
  if !(stringToUpper order == "ASC" || stringToUpper order == "DESC") ||
      limit < 0 || offset < 0 then
    .error "failed to query ratings"
  else
    .ok (((sortRatings (ratingLe col (stringToUpper order == "ASC")) rows).drop
      offset.toNat).take limit.toNat)

/-- `ratingRepository.GetByUser` (ratings.go lines 90-104). -/
def ratingRepoGetByUser (db : RatingsDb) (userId : String) (options : List SearchOption) :
    Except String (List Rating) :=
  let opts := applyOptions options
  sqlOrderLimitOffset (getSortColumn opts.sortBy) opts.order opts.limit opts.offset
    (db.filter (fun r => r.userId == userId))

/-- `ratingRepository.GetByMovie` (ratings.go lines 106-120). -/
def ratingRepoGetByMovie (db : RatingsDb) (movieId : String) (options : List SearchOption) :
    Except String (List Rating) :=
  let opts := applyOptions options
  sqlOrderLimitOffset (getSortColumn opts.sortBy) opts.order opts.limit opts.offset
    (db.filter (fun r => r.movieId == movieId))

/-- `ratingService.GetUserRatings` (rating.go lines 363-380): builds the option list, queries the
repository and returns the page together with `totalCount := int64(len(ratingsList))`. -/
def getUserRatings (db : RatingsDb) (userId : String) (limit offset : Int)
    (sortBy order : String) : Except AppError (List Rating × Int) :=
  match ratingRepoGetByUser db userId [withLimit limit, withOffset offset, withSort sortBy order] with
  | .error _ => .error (newInternalError "Failed to get user ratings")
  | .ok ratingsList => .ok (ratingsList, (ratingsList.length : Int))

/-- `ratingService.GetMovieRatings` (rating.go lines 382-399). -/
def getMovieRatings (db : RatingsDb) (movieId : String) (limit offset : Int)
    (sortBy order : String) : Except AppError (List Rating × Int) :=
  match ratingRepoGetByMovie db movieId [withLimit limit, withOffset offset, withSort sortBy order] with
  | .error _ => .error (newInternalError "Failed to get movie ratings")
  | .ok ratingsList => .ok (ratingsList, (ratingsList.length : Int))

/-- The fields of `movies.Movie` (part_003 lines 101-118) consumed by the profile join:
identity, display title and genre.  The remaining metadata fields play no part in the
embedded operations. -/
structure Movie where
  id : String
  title : String
  genre : String
deriving DecidableEq

/-- `UserRatingWithMovie` (part_010 lines 1001-1007). -/
structure UserRatingWithMovie where
  rating : Rating
  movie : Movie
  movieAverage : Rat
  totalRatings : Int
  userVsAvg : String
deriving DecidableEq

/-- `userService.compareUserRatingToAverage` (part_010 lines 1207-1227), with the 0.5 / 0.1
thresholds as exact rationals. -/
def compareUserRatingToAverage (userScore : Int) (movieAverage : Rat) : String :=
  if movieAverage = 0 then "only_rating"
  else
    let diff : Rat := (userScore : Rat) - movieAverage
    if diff > 1 / 2 then "much_above"
    else if diff > 1 / 10 then "above"
    else if diff < -(1 / 2) then "much_below"
    else if diff < -(1 / 10) then "below"
    else "same"

/-- The join loop of `userService.GetUserProfile` (part_010 lines 1079-1105).  The Go code
allocates `make([]*UserRatingWithMovie, len(userRatings))` — a slice of nil pointers — and fills
slot `i` per rating; when `movieRepo.GetByID` fails it executes `continue`, leaving slot `i` nil,
modelled as `none`.  When `GetMovieStats` fails the row is still built against zeroed stats
(lines 1087-1093).  The two collaborators are passed as lookup functions. -/
def getUserProfileRows (movieLookup : String → Except String Movie)
    (statsLookup : String → Except String MovieRatingStats)
    (userRatings : List Rating) : List (Option UserRatingWithMovie) :=
  userRatings.map (fun userRating =>
    match movieLookup userRating.movieId with
    | .error _ => none
    | .ok movie =>
      let movieStats :=
        match statsLookup userRating.movieId with
        | .error _ =>
          ({ movieId := "", averageScore := 0, totalRatings := 0, scoreCount := [] } :
            MovieRatingStats)
        | .ok st => st
      some
        { rating := userRating, movie := movie, movieAverage := movieStats.averageScore,
          totalRatings := movieStats.totalRatings,
          userVsAvg := compareUserRatingToAverage userRating.score movieStats.averageScore })

/-- One iteration of the favorite-genre selection loop in `userService.GetUserStats`
(part_010 lines 1182-1189): a genre replaces the current favorite only when its count is
strictly greater. -/
def favoriteGenreFold (acc : String × Int) (entry : String × Int) : String × Int :=
  if entry.2 > acc.2 then (entry.1, entry.2) else acc

/-- The favorite-genre computation of `GetUserStats`: `for genre, count := range genreBreakdown`
starting from `favoriteGenre, maxGenreCount := "", 0`.  Go map iteration order is unspecified and
deliberately randomized between runs, so the breakdown map is presented to the loop as an
arbitrary ordering `entries` of its key-count pairs. -/
def favoriteGenre (entries : List (String × Int)) : String :=
  (entries.foldl favoriteGenreFold ("", 0)).1

/-- The shared mutable fields of `ratingService` touched by concurrent code paths. -/
inductive SharedLoc
  | globalAverage
  | configGlobalAverage
  | configConfidenceK
deriving DecidableEq

/-- One access to shared service state, with the set of locks held while performing it.
`rating.go` imports no `sync` package and takes no lock on any path, so every access below
carries an empty lock set — faithful to the source. -/
structure MemAccess where
  isWrite : Bool
  loc : SharedLoc
  locksHeld : List String
deriving DecidableEq

/-- Shared-state accesses of `ratingService.UpdateGlobalAverage` on its success path
(rating.go lines 455-458): read `s.globalAverage` into `oldAverage`, write the new value into
`s.globalAverage`, write it into `s.bayesianConfig.GlobalAverage`. -/
def updateGlobalAverageAccesses : List MemAccess :=
  [{ isWrite := false, loc := .globalAverage, locksHeld := [] },
   { isWrite := true, loc := .globalAverage, locksHeld := [] },
   { isWrite := true, loc := .configGlobalAverage, locksHeld := [] }]

/-- Shared-state accesses of `ratingService.calculateBayesianAverage` (rating.go lines 127-128):
read `s.bayesianConfig.ConfidenceK` and `s.globalAverage`. -/
def calculateBayesianAverageAccesses : List MemAccess :=
  [{ isWrite := false, loc := .configConfidenceK, locksHeld := [] },
   { isWrite := false, loc := .globalAverage, locksHeld := [] }]

/-- Two accesses conflict when they touch the same location, at least one writes, and no common
lock orders them. -/
def conflicting (a b : MemAccess) : Bool :=
  a.loc == b.loc && (a.isWrite || b.isWrite) &&
    !(a.locksHeld.any (fun l => b.locksHeld.contains l))

/-- A data race between two threads whose access lists have no happens-before edge between them
(here: the fire-and-forget `go func` launched by `CreateRating`, rating.go lines 249-254, versus
a concurrent request thread running the estimator): some pair of accesses conflicts. -/
def hasDataRace (t1 t2 : List MemAccess) : Bool :=
  t1.any (fun a => t2.any (fun b => conflicting a b))

/-- A one-row store used for concrete evaluations. -/
def sampleDb : RatingsDb :=
  [{ id := "r1", userId := "u1", movieId := "m1", score := 4, review := "",
     createdAt := 0, updatedAt := 0 }]

/-- A cache entry used for the C2 counterexample. -/
def statsCached : MovieRatingStats :=
  { movieId := "m1", averageScore := 5, totalRatings := 10, scoreCount := [(5, 10)] }

/-- A store-computed aggregate used for the C2 counterexample. -/
def statsStore : MovieRatingStats :=
  { movieId := "m1", averageScore := 2, totalRatings := 4, scoreCount := [(2, 4)] }

/-- A movie known to the lookup used in the C9 theorems. -/
def movieM2 : Movie := { id := "m2", title := "Known Movie", genre := "Action" }

/-- An entity lookup that fails for every movie except "m2". -/
def sampleMovieLookup : String → Except String Movie := fun id =>
  if id == "m2" then .ok movieM2 else .error "movie not found"

/-- A stats lookup that always succeeds with a 3.0 average over 2 ratings. -/
def sampleStatsLookup : String → Except String MovieRatingStats := fun id =>
  .ok { movieId := id, averageScore := 3, totalRatings := 2, scoreCount := [(3, 2)] }

/-- A vote on movie "m1" (whose lookup fails). -/
def voteOnM1 : Rating :=
  { id := "r1", userId := "u1", movieId := "m1", score := 4, review := "",
    createdAt := 0, updatedAt := 0 }

/-- A vote on movie "m2" (whose lookup succeeds). -/
def voteOnM2 : Rating :=
  { id := "r2", userId := "u1", movieId := "m2", score := 4, review := "",
    createdAt := 0, updatedAt := 0 }

/-- A create request used by the C3 witness. -/
def reqU1M1 : CreateRatingRequest :=
  { userId := "u1", movieId := "m1", score := 4, review := "nice" }

/-- A store already holding a (u1, m1) rating, used by the C3 witness. -/
def dbWithU1M1 : RatingsDb :=
  [{ id := "r9", userId := "u1", movieId := "m1", score := 2, review := "",
     createdAt := 0, updatedAt := 0 }]

/-- C4: with the prior held by the service (confidence constant K, global mean m) and any entity
mean R, `calculateBayesianAverage R 0` is exactly m, and for every vote count v > 0 it is
(K*m + R*v) / (K + v). -/
theorem calculateBayesianAverage_formula (s : ServiceState) (R : Rat) (v : Int) (hv : 0 < v) :
    calculateBayesianAverage s R 0 = s.globalAverage ∧
    calculateBayesianAverage s R v =
      (s.bayesianConfig.confidenceK * s.globalAverage + R * (v : Rat)) /
        (s.bayesianConfig.confidenceK + (v : Rat)) := by
  refine ⟨by simp [calculateBayesianAverage], ?_⟩
  have hv2 : ((v : Rat)) ≠ 0 := by
    have : (0 : Rat) < (v : Rat) := by exact_mod_cast hv
    exact this.ne'
  simp [calculateBayesianAverage, hv2]

/-- Witness for C4 at the default service state, R = 4, v = 7. -/
theorem calculateBayesianAverage_formula_witness :
    (0 : Int) < 7 ∧
    (calculateBayesianAverage newRatingService 4 0 = newRatingService.globalAverage ∧
      calculateBayesianAverage newRatingService 4 7 =
        (newRatingService.bayesianConfig.confidenceK * newRatingService.globalAverage +
            4 * ((7 : Int) : Rat)) /
          (newRatingService.bayesianConfig.confidenceK + ((7 : Int) : Rat))) :=
  ⟨by decide, calculateBayesianAverage_formula newRatingService 4 7 (by decide)⟩

/-- C5: holding the entity mean R strictly above the service's global mean, with a positive
confidence constant, `calculateBayesianAverage` is non-decreasing in the vote count over
v = 0, 1, 2, ... and bounded above by R. -/
theorem calculateBayesianAverage_monotone_bounded (s : ServiceState) (R : Rat)
    (hm : s.globalAverage < R) (hK : 0 < s.bayesianConfig.confidenceK) (v : Nat) :
    calculateBayesianAverage s R (v : Int) ≤ calculateBayesianAverage s R ((v : Int) + 1) ∧
    calculateBayesianAverage s R (v : Int) ≤ R := by
  rcases Nat.eq_zero_or_pos v with hv | hv
  · subst hv
    have h1 : calculateBayesianAverage s R ((0 : Nat) : Int) = s.globalAverage := by
      simp [calculateBayesianAverage]
    have h2 : calculateBayesianAverage s R (((0 : Nat) : Int) + 1) =
        (s.bayesianConfig.confidenceK * s.globalAverage + R * 1) /
          (s.bayesianConfig.confidenceK + 1) := by
      norm_num [calculateBayesianAverage]
    refine ⟨?_, ?_⟩
    · rw [h1, h2, le_div_iff₀ (by linarith)]
      nlinarith
    · rw [h1]; linarith
  · have hvne : v ≠ 0 := hv.ne'
    have hvQ : (0 : Rat) ≤ (v : Rat) := by positivity
    have e1 : calculateBayesianAverage s R (v : Int) =
        (s.bayesianConfig.confidenceK * s.globalAverage + R * (v : Rat)) /
          (s.bayesianConfig.confidenceK + (v : Rat)) := by
      simp [calculateBayesianAverage, hvne]
    have hne2 : ((v : Rat) + 1) ≠ 0 := by positivity
    have hint : (((v : Int) + 1 : Int) : Rat) = (v : Rat) + 1 := by push_cast; ring
    have e2 : calculateBayesianAverage s R ((v : Int) + 1) =
        (s.bayesianConfig.confidenceK * s.globalAverage + R * ((v : Rat) + 1)) /
          (s.bayesianConfig.confidenceK + ((v : Rat) + 1)) := by
      simp [calculateBayesianAverage, hint, hne2]
    refine ⟨?_, ?_⟩
    · rw [e1, e2, div_le_div_iff₀ (by linarith) (by linarith)]
      nlinarith [mul_pos hK (sub_pos.mpr hm)]
    · rw [e1, div_le_iff₀ (by linarith)]
      nlinarith [mul_pos hK (sub_pos.mpr hm)]

/-- Witness for C5 at the default service state, R = 4, v = 2. -/
theorem calculateBayesianAverage_monotone_bounded_witness :
    newRatingService.globalAverage < 4 ∧ 0 < newRatingService.bayesianConfig.confidenceK ∧
    (calculateBayesianAverage newRatingService 4 ((2 : Nat) : Int) ≤
        calculateBayesianAverage newRatingService 4 (((2 : Nat) : Int) + 1) ∧
      calculateBayesianAverage newRatingService 4 ((2 : Nat) : Int) ≤ 4) :=
  ⟨by decide, by decide,
    calculateBayesianAverage_monotone_bounded newRatingService 4 (by decide) (by decide) 2⟩

/-- C6: when the store's global-mean query fails, `UpdateGlobalAverage` returns the wrapped
error and the service state — including the stored global prior — is exactly what it was before
the call. -/
theorem updateGlobalAverage_error_leaves_prior_unchanged (s : ServiceState) (e : String) :
    updateGlobalAverage s (.error e) =
      (.error ("failed to update global average: " ++ e), s) := rfl

/-- C1 (code bug): against the real repository — whose lookup and delete report a missing ID as
"rating with ID {id} not found" — `DeleteRating` and `UpdateRating` on a nonexistent ID return a
generic internal error, because `isNotFoundError` compares the error text with the exact string
"not found" and never matches. -/
theorem missingRatingId_internal_error_bug :
    deleteRating sampleDb "no-such-id" = .error (newInternalError "Failed to delete rating") ∧
    updateRating sampleDb "no-such-id" { score := some 5, review := none } 1 =
      .error (newInternalError "Failed to get rating for update") ∧
    isNotFoundError "rating with ID no-such-id not found" = false ∧
    (newInternalError "Failed to delete rating").code ≠ (newNotFoundError "Rating not found").code :=
  ⟨rfl, rfl, rfl, by decide⟩

/-- C2 counterexample: with a cache entry holding `statsCached` while the Vote Store computes
`statsStore`, `GetMovieStats` queries the store and returns the store value, whereas the spec's
cache-aside read would return the cached aggregate without a store query. -/
theorem getMovieStats_ignores_cache_cex :
    getMovieStats (some statsCached) (.ok statsStore) = (.ok statsStore, true) ∧
    getEntityAggregateSpec (some statsCached) statsStore = (statsCached, false) ∧
    statsCached ≠ statsStore :=
  ⟨rfl, rfl, by decide⟩

/-- C2 amended: `GetMovieStats` is not cache-aside — its result is independent of any cache
contents, and it queries the Vote Store on every call (the rating service holds no cache and
populates none). -/
theorem getMovieStats_always_queries_store (c1 c2 : Option MovieRatingStats)
    (repoResult : Except String MovieRatingStats) :
    getMovieStats c1 repoResult = getMovieStats c2 repoResult ∧
    (getMovieStats c1 repoResult).2 = true := by
  cases repoResult <;> simp [getMovieStats]

/-- C7 counterexample: the claim that all accesses to the shared global-mean state are
synchronized (mutex-guarded or atomic) fails — the background refresh's write of
`globalAverage` and the estimator's concurrent read conflict with no common lock. -/
theorem globalAverage_unsynchronized_cex :
    ¬ hasDataRace updateGlobalAverageAccesses calculateBayesianAverageAccesses = false := by
  decide

/-- C7 amended: the global prior is a plain struct field; `UpdateGlobalAverage` (run in a
fire-and-forget goroutine after each mutation) writes it while `calculateBayesianAverage`
reads it, with no lock held on either side, so the two paths race on the shared state. -/
theorem globalAverage_write_read_race :
    hasDataRace updateGlobalAverageAccesses calculateBayesianAverageAccesses = true ∧
    conflicting { isWrite := true, loc := .globalAverage, locksHeld := [] }
      { isWrite := false, loc := .globalAverage, locksHeld := [] } = true := by
  decide

/-- C8 counterexample: the same genre breakdown, presented to the loop in two iteration orders
that are permutations of one another (Go randomizes map iteration order between runs), yields two
different favorite genres when two genres tie for the maximum count. -/
theorem favoriteGenre_tie_depends_on_order_cex :
    favoriteGenre [("Action", 1), ("Comedy", 1)] = "Action" ∧
    favoriteGenre [("Comedy", 1), ("Action", 1)] = "Comedy" ∧
    List.Perm [(("Action" : String), (1 : Int)), ("Comedy", 1)] [("Comedy", 1), ("Action", 1)] := by
  refine ⟨rfl, rfl, ?_⟩
  decide

/-- If every entry's count is at most the accumulator's, the fold never replaces it. -/
theorem favoriteGenreFold_keep (l : List (String × Int)) :
    ∀ acc : String × Int, (∀ p ∈ l, p.2 ≤ acc.2) → l.foldl favoriteGenreFold acc = acc := by
  induction l with
  | nil => intro acc _; rfl
  | cons q rest ih =>
    intro acc h
    have hq : q.2 ≤ acc.2 := h q (List.mem_cons_self q rest)
    have hstep : favoriteGenreFold acc q = acc := by
      unfold favoriteGenreFold
      rw [if_neg (by omega)]
    rw [List.foldl_cons, hstep]
    exact ih acc (fun p hp => h p (List.mem_cons_of_mem q hp))

/-- If `(g, c)` is in the list, every other entry's count is strictly below `c`, and the
accumulator is strictly below `c`, the fold ends at `(g, c)`. -/
theorem favoriteGenreFold_reach (l : List (String × Int)) :
    ∀ (acc : String × Int) (g : String) (c : Int),
      (g, c) ∈ l → (∀ p ∈ l, p ≠ (g, c) → p.2 < c) → acc.2 < c →
      l.foldl favoriteGenreFold acc = (g, c) := by
  induction l with
  | nil => intro _ _ _ hmem; simp at hmem
  | cons q rest ih =>
    intro acc g c hmem hmax hacc
    rw [List.foldl_cons]
    by_cases hq : q = (g, c)
    · subst hq
      have hstep : favoriteGenreFold acc (g, c) = (g, c) := by
        unfold favoriteGenreFold
        rw [if_pos (by omega)]
      rw [hstep]
      refine favoriteGenreFold_keep rest (g, c) (fun p hp => ?_)
      by_cases hpe : p = (g, c)
      · rw [hpe]
      · exact le_of_lt (hmax p (List.mem_cons_of_mem _ hp) hpe)
    · have hmem2 : (g, c) ∈ rest := by
        rcases List.mem_cons.mp hmem with h1 | h2
        · exact absurd h1.symm hq
        · exact h2
      have hqlt : q.2 < c := hmax q (List.mem_cons_self q rest) hq
      have hacc2 : (favoriteGenreFold acc q).2 < c := by
        unfold favoriteGenreFold
        split
        · exact hqlt
        · exact hacc
      exact ih (favoriteGenreFold acc q) g c hmem2
        (fun p hp hne => hmax p (List.mem_cons_of_mem q hp) hne) hacc2

/-- C8 amended: the favorite genre is the argmax of the breakdown under a strictly-greater
comparison in map iteration order.  Whenever one genre's count is strictly above all others (and
positive), the result is the same for every iteration order, so the computation is deterministic
exactly when the maximum is unique; a tie is broken by whichever entry the randomized iteration
yields first. -/
theorem favoriteGenre_unique_max_deterministic (entries : List (String × Int)) (g : String)
    (c : Int) (hmem : (g, c) ∈ entries) (hpos : 0 < c)
    (hmax : ∀ p ∈ entries, p ≠ (g, c) → p.2 < c) :
    favoriteGenre entries = g := by
  unfold favoriteGenre
  rw [favoriteGenreFold_reach entries ("", 0) g c hmem hmax hpos]

/-- Witness for C8's amended theorem on a breakdown with a unique maximum. -/
theorem favoriteGenre_unique_max_deterministic_witness :
    ((("Drama" : String), (3 : Int)) ∈ [(("Action" : String), (1 : Int)), ("Drama", 3)]) ∧
    (0 : Int) < 3 ∧
    favoriteGenre [("Action", 1), ("Drama", 3)] = "Drama" :=
  ⟨by decide, by decide,
    favoriteGenre_unique_max_deterministic [("Action", 1), ("Drama", 3)] "Drama" 3 (by decide)
      (by decide) (by decide)⟩

/-- C9 counterexample: when the movie lookup fails for the first of two votes, the returned list
still has two slots, but the first slot is nil (`none`) — not a well-formed row with only the
comparison fields skipped. -/
theorem getUserProfileRows_nil_row_cex :
    getUserProfileRows sampleMovieLookup sampleStatsLookup [voteOnM1, voteOnM2] =
      [none,
       some { rating := voteOnM2, movie := movieM2, movieAverage := 3, totalRatings := 2,
              userVsAvg := "much_above" }] := by
  have h1 : ("m1" : String) ≠ "m2" := by decide
  norm_num [getUserProfileRows, sampleMovieLookup, sampleStatsLookup, voteOnM1, voteOnM2,
    compareUserRatingToAverage, h1]

/-- C9 amended: the join preserves the list length (one slot per vote), and a slot is nil exactly
when that vote's movie lookup failed; rows whose lookup succeeded are present, with the stats
fallback covering a failed stats query. -/
theorem getUserProfileRows_slots (movieLookup : String → Except String Movie)
    (statsLookup : String → Except String MovieRatingStats) (userRatings : List Rating)
    (i : Nat) (r : Rating) (hr : userRatings[i]? = some r) :
    (getUserProfileRows movieLookup statsLookup userRatings).length = userRatings.length ∧
    ((getUserProfileRows movieLookup statsLookup userRatings)[i]? = some none ↔
      ∃ e, movieLookup r.movieId = .error e) := by
  constructor
  · simp [getUserProfileRows]
  · unfold getUserProfileRows
    rw [List.getElem?_map, hr]
    cases hml : movieLookup r.movieId with
    | error e => simp [hml]
    | ok m => simp [hml]

/-- Witness for C9's amended theorem at slot 0 of a two-vote list. -/
theorem getUserProfileRows_slots_witness :
    ([voteOnM1, voteOnM2][0]? = some voteOnM1) ∧
    ((getUserProfileRows sampleMovieLookup sampleStatsLookup [voteOnM1, voteOnM2]).length =
        ([voteOnM1, voteOnM2] : List Rating).length ∧
      ((getUserProfileRows sampleMovieLookup sampleStatsLookup [voteOnM1, voteOnM2])[0]? =
          some none ↔ ∃ e, sampleMovieLookup voteOnM1.movieId = .error e)) :=
  ⟨rfl,
    getUserProfileRows_slots sampleMovieLookup sampleStatsLookup [voteOnM1, voteOnM2] 0 voteOnM1
      rfl⟩

/-- C3: whenever the pre-existence check passes (no rating by this user for this movie in the
store at precheck time) but the Vote Store's insert fails with its uniqueness-constraint
violation (such a rating exists by save time), `CreateRating` returns the very ConflictError
that the pre-check path itself produces on a store already holding the pair. -/
theorem createRating_insert_conflict_same_error (db1 db2 : RatingsDb)
    (req : CreateRatingRequest) (genId : String) (now : Int)
    (hpre : ∀ r ∈ db1, ¬(r.userId = req.userId ∧ r.movieId = req.movieId))
    (hdup : ∃ r ∈ db2, r.userId = req.userId ∧ r.movieId = req.movieId)
    (huser : req.userId ≠ "") (hmovie : req.movieId ≠ "")
    (hscore : 1 ≤ req.score ∧ req.score ≤ 5) :
    createRating db1 db2 req genId now =
      .error (newConflictError "User has already rated this movie") ∧
    createRating db2 db2 req genId now =
      .error (newConflictError "User has already rated this movie") := by
  have hnew : newRating req.userId req.movieId req.score req.review genId now =
      .ok { id := genId, userId := req.userId, movieId := req.movieId, score := req.score,
            review := req.review.trim, createdAt := now, updatedAt := now } := by
    have h1 : (req.userId == "") = false := by simp [huser]
    have h2 : (req.movieId == "") = false := by simp [hmovie]
    have h3 : ¬(req.score < 1 ∨ 5 < req.score) := by omega
    simp [newRating, h1, h2, h3]
  have hsave : ratingRepoSave db2
      { id := genId, userId := req.userId, movieId := req.movieId, score := req.score,
        review := req.review.trim, createdAt := now, updatedAt := now } =
      .error "user has already rated this movie" := by
    obtain ⟨x, hx, hxu, hxm⟩ := hdup
    unfold ratingRepoSave
    rw [if_pos]
    rw [List.any_eq_true]
    exact ⟨x, hx, by simp [hxu, hxm]⟩
  constructor
  · have hfind1 : db1.find? (fun r => r.userId == req.userId && r.movieId == req.movieId) =
        none := by
      rw [List.find?_eq_none]
      intro r hrmem
      simp only [Bool.and_eq_true, beq_iff_eq]
      exact hpre r hrmem
    have hgbu : ratingRepoGetByUserAndMovie db1 req.userId req.movieId =
        .error ("rating not found for user " ++ req.userId ++ " and movie " ++ req.movieId) := by
      unfold ratingRepoGetByUserAndMovie
      rw [hfind1]
    simp [createRating, hgbu, hnew, hsave, isConflictError]
  · obtain ⟨x, hx, hxu, hxm⟩ := hdup
    have hpx : (x.userId == req.userId && x.movieId == req.movieId) = true := by
      simp [hxu, hxm]
    have hfind2 : ∃ y,
        db2.find? (fun r => r.userId == req.userId && r.movieId == req.movieId) = some y := by
      cases hc : db2.find? (fun r => r.userId == req.userId && r.movieId == req.movieId) with
      | none =>
        rw [List.find?_eq_none] at hc
        exact absurd hpx (hc x hx)
      | some y => exact ⟨y, rfl⟩
    obtain ⟨y, hy⟩ := hfind2
    have hgbu2 : ratingRepoGetByUserAndMovie db2 req.userId req.movieId = .ok y := by
      unfold ratingRepoGetByUserAndMovie
      rw [hy]
    simp [createRating, hgbu2]

/-- Witness for C3: empty store at precheck, a (u1, m1) row present at save time. -/
theorem createRating_insert_conflict_same_error_witness :
    (∀ r ∈ ([] : RatingsDb), ¬(r.userId = reqU1M1.userId ∧ r.movieId = reqU1M1.movieId)) ∧
    (∃ r ∈ dbWithU1M1, r.userId = reqU1M1.userId ∧ r.movieId = reqU1M1.movieId) ∧
    (createRating [] dbWithU1M1 reqU1M1 "gen-1" 7 =
        .error (newConflictError "User has already rated this movie") ∧
      createRating dbWithU1M1 dbWithU1M1 reqU1M1 "gen-1" 7 =
        .error (newConflictError "User has already rated this movie")) :=
  ⟨by simp, by decide,
    createRating_insert_conflict_same_error [] dbWithU1M1 reqU1M1 "gen-1" 7 (by simp) (by decide)
      (by decide) (by decide) (by decide)⟩

/-- `insertSorted` adds exactly one element. -/
theorem insertSorted_length (le : Rating → Rating → Bool) (r : Rating) (l : List Rating) :
    (insertSorted le r l).length = l.length + 1 := by
  induction l with
  | nil => rfl
  | cons x xs ih =>
    unfold insertSorted
    split
    · simp
    · simp [ih]

/-- The sorting model preserves length. -/
theorem sortRatings_length (le : Rating → Rating → Bool) (l : List Rating) :
    (sortRatings le l).length = l.length := by
  induction l with
  | nil => rfl
  | cons x xs ih => simp [sortRatings, insertSorted_length, ih]

/-- A successful paginated query implies nonnegative limit and offset, and a page of length
`min limit (rows.length - offset)`. -/
theorem sqlQuery_ok_length (col order : String) (limit offset : Int)
    (rows page : List Rating)
    (h : sqlOrderLimitOffset col order limit offset rows = .ok page) :
    0 ≤ limit ∧ 0 ≤ offset ∧
    page.length = min limit.toNat (rows.length - offset.toNat) := by
  unfold sqlOrderLimitOffset at h
  split at h
  · exact absurd h (by simp)
  · rename_i hcond
    simp only [Bool.or_eq_true, decide_eq_true_eq, not_or] at hcond
    obtain ⟨⟨h1, h2⟩, h3⟩ := hcond
    simp only [Except.ok.injEq] at h
    subst h
    refine ⟨by omega, by omega, ?_⟩
    simp [List.length_take, List.length_drop, sortRatings_length]

/-- C10: `GetUserRatings` and `GetMovieRatings` report as the total count exactly the length of
the returned page (after limit/offset truncation): the total never exceeds the limit, and when
more than `limit` matching rows lie past the offset, the total is the limit — strictly less than
the user's (resp. movie's) full rating count. -/
theorem getRatings_total_is_page_length (db : RatingsDb) (userId movieId : String)
    (limit offset : Int) (sortBy order : String) (page : List Rating) (total : Int) :
    (getUserRatings db userId limit offset sortBy order = .ok (page, total) →
      total = page.length ∧ total ≤ limit ∧
        (offset + limit < ((db.filter (fun r => r.userId == userId)).length : Int) →
          total = limit ∧
            total < ((db.filter (fun r => r.userId == userId)).length : Int))) ∧
    (getMovieRatings db movieId limit offset sortBy order = .ok (page, total) →
      total = page.length ∧ total ≤ limit ∧
        (offset + limit < ((db.filter (fun r => r.movieId == movieId)).length : Int) →
          total = limit ∧
            total < ((db.filter (fun r => r.movieId == movieId)).length : Int))) := by
  constructor
  · intro h
    unfold getUserRatings at h
    cases hq : ratingRepoGetByUser db userId
        [withLimit limit, withOffset offset, withSort sortBy order] with
    | error e => rw [hq] at h; simp at h
    | ok l =>
      rw [hq] at h
      simp only [Except.ok.injEq, Prod.mk.injEq] at h
      obtain ⟨hpage, htotal⟩ := h
      have hq2 : sqlOrderLimitOffset (getSortColumn sortBy) order limit offset
          (db.filter (fun r => r.userId == userId)) = .ok l := hq
      obtain ⟨hl, ho, hlen⟩ := sqlQuery_ok_length _ _ _ _ _ _ hq2
      subst hpage
      refine ⟨by omega, by omega, fun hlt => ⟨by omega, by omega⟩⟩
  · intro h
    unfold getMovieRatings at h
    cases hq : ratingRepoGetByMovie db movieId
        [withLimit limit, withOffset offset, withSort sortBy order] with
    | error e => rw [hq] at h; simp at h
    | ok l =>
      rw [hq] at h
      simp only [Except.ok.injEq, Prod.mk.injEq] at h
      obtain ⟨hpage, htotal⟩ := h
      have hq2 : sqlOrderLimitOffset (getSortColumn sortBy) order limit offset
          (db.filter (fun r => r.movieId == movieId)) = .ok l := hq
      obtain ⟨hl, ho, hlen⟩ := sqlQuery_ok_length _ _ _ _ _ _ hq2
      subst hpage
      refine ⟨by omega, by omega, fun hlt => ⟨by omega, by omega⟩⟩

/-- Witness for C10 on the one-row store with limit 1, offset 0. -/
theorem getRatings_total_is_page_length_witness :
    ((1 : Int) = (sampleDb.length : Int) ∧ (1 : Int) ≤ 1 ∧
      ((0 : Int) + 1 < ((sampleDb.filter (fun r => r.userId == "u1")).length : Int) →
        (1 : Int) = 1 ∧
          (1 : Int) < ((sampleDb.filter (fun r => r.userId == "u1")).length : Int))) ∧
    ((1 : Int) = (sampleDb.length : Int) ∧ (1 : Int) ≤ 1 ∧
      ((0 : Int) + 1 < ((sampleDb.filter (fun r => r.movieId == "m1")).length : Int) →
        (1 : Int) = 1 ∧
          (1 : Int) < ((sampleDb.filter (fun r => r.movieId == "m1")).length : Int))) :=
  ⟨(getRatings_total_is_page_length sampleDb "u1" "m1" 1 0 "created_at" "desc" sampleDb 1).1 rfl,
   (getRatings_total_is_page_length sampleDb "u1" "m1" 1 0 "created_at" "desc" sampleDb 1).2 rfl⟩
